import Mathlib

/-!
Verification of the PlatinaArchive-Web score-tracking backend.

Shallow embedding of the model layer (models.py), the submission endpoint
(api/routes.py, function _update_db_archive) and the progress batch job
(scripts/update_decoder_progress.py).  The relational store is modelled as
Lean lists of rows; SQL queries become list filters, sorts and folds; machine
floats (judge, patch, totals) are modelled as rationals; timestamps as
naturals.  Python dynamic JSON values are modelled by the PyVal type so that
the isinstance checks of the route keep their Python semantics (a Python bool
is an instance of int).
-/

namespace PlatinaArchive

/-! ### Data model (models.py) -/

/-- Row of the PlatinaPatterns table: primary key (songID, line, difficulty, level). -/
structure PlatinaPattern where
  song_id : Int
  line : Int
  difficulty : String
  level : Int
  designer : String
deriving DecidableEq, Repr

/-- Row of the Decoders table (models.py class Decoder). -/
structure Decoder where
  name : String
  hashed_secret : String
  hashed_pass : String
deriving DecidableEq, Repr

/-- Row of the DecodeResults table: primary key
(decoder, songID, line, difficulty, level); judge and patch are floats in the
source, modelled as rationals; decodedAt is a timestamp, modelled as Nat. -/
structure DecodeResult where
  decoder : String
  song_id : Int
  line : Int
  difficulty : String
  level : Int
  judge : Rat
  score : Int
  patch : Rat
  decoded_at : Nat
  is_full_combo : Bool
  is_max_patch : Bool
  old_judge : Rat
  old_score : Int
  old_patch : Rat
  old_is_full_combo : Bool
  old_is_max_patch : Bool
deriving DecidableEq, Repr

/-- Row of the DecoderProgress table: primary key (decoder, line, recorded_at);
the line column holds one of the labels 4L, 4L+, 6L, 6L+. -/
structure DecoderProgress where
  decoder : String
  line : String
  total : Rat
  recorded_at : Nat
deriving DecidableEq, Repr

/-- The thirteen emblem tiers of models.py (type DecoderEmblem), lowest first. -/
inductive DecoderEmblem where
  | bit
  | nibble
  | Byte
  | deca
  | hecto
  | kilo
  | Mega
  | Giga
  | Tera
  | Peta
  | Exa
  | Zeta
  | Yotta
deriving DecidableEq, Repr

/-- Position of a tier in the ordered list of thirteen tiers, lowest = 0. -/
def emblemIndex : DecoderEmblem → Nat
  | .bit => 0
  | .nibble => 1
  | .Byte => 2
  | .deca => 3
  | .hecto => 4
  | .kilo => 5
  | .Mega => 6
  | .Giga => 7
  | .Tera => 8
  | .Peta => 9
  | .Exa => 10
  | .Zeta => 11
  | .Yotta => 12

/-! ### Score ledger (models.py, class DecodeResult) -/

/-- Primary key of a DecodeResults row. -/
def resultKey (r : DecodeResult) : String × Int × Int × String × Int :=
  (r.decoder, r.song_id, r.line, r.difficulty, r.level)

/-- Key without the decoder component, used to compare a result against the
pattern catalog. -/
def resultKey4 (r : DecodeResult) : Int × Int × String × Int :=
  (r.song_id, r.line, r.difficulty, r.level)

/-- Primary key of a PlatinaPatterns row. -/
def patternKey (p : PlatinaPattern) : Int × Int × String × Int :=
  (p.song_id, p.line, p.difficulty, p.level)

/-- Embedding of db.session.get(DecodeResult, key): primary-key lookup. -/
def findResult (db : List DecodeResult) (k : String × Int × Int × String × Int) :
    Option DecodeResult :=
  db.find? (fun r => decide (resultKey r = k))

/-- The in-place mutation of the else-branch of DecodeResult.update_or_make
(models.py lines 374 to 384): archive the live values into the shadow fields,
then overwrite the live values with the submitted ones and refresh decodedAt. -/
def overwriteRecord (r : DecodeResult) (new_judge : Rat) (new_score : Int)
    (new_patch : Rat) (new_is_full_combo new_is_max_patch : Bool) (utc_now : Nat) :
    DecodeResult :=
  { r with
    old_judge := r.judge
    old_score := r.score
    old_patch := r.patch
    old_is_full_combo := r.is_full_combo
    old_is_max_patch := r.is_max_patch
    decoded_at := utc_now
    judge := new_judge
    score := new_score
    patch := new_patch
    is_full_combo := new_is_full_combo
    is_max_patch := new_is_max_patch }

/-- Embedding of DecodeResult.update_or_make (models.py lines 334 to 391).
If no row has the given primary key a fresh row is inserted with zeroed shadow
fields; otherwise the existing row is overwritten in place via overwriteRecord.
The commit of the source always succeeds in this model (transient storage
failures are out of scope). -/
def update_or_make (db : List DecodeResult) (decoder : String) (song_id : Int)
    (line : Int) (difficulty : String) (level : Int) (new_judge : Rat)
    (new_score : Int) (new_patch : Rat) (new_is_full_combo new_is_max_patch : Bool)
    (utc_now : Nat) : List DecodeResult :=
  match findResult db (decoder, song_id, line, difficulty, level) with
  | none =>
      db ++ [{ decoder := decoder
               song_id := song_id
               line := line
               difficulty := difficulty
               level := level
               judge := new_judge
               score := new_score
               patch := new_patch
               decoded_at := utc_now
               is_full_combo := new_is_full_combo
               is_max_patch := new_is_max_patch
               old_judge := 0
               old_score := 0
               old_patch := 0
               old_is_full_combo := false
               old_is_max_patch := false }]
  | some _ =>
      db.map (fun r =>
        if resultKey r = (decoder, song_id, line, difficulty, level) then
          overwriteRecord r new_judge new_score new_patch new_is_full_combo
            new_is_max_patch utc_now
        else r)

/-! ### Ranking engine (models.py, class Decoder) -/

/-- The filter of Decoder.get_top_50_patch_results: rows of the given decoder
and line, with difficulty PLUS exactly when is_plus. -/
def resultMatches (name : String) (line : Int) ( is_plus : Bool)
    (r : DecodeResult) : Bool :=
  r.decoder == name && r.line == line &&
    (if is_plus then r.difficulty == "PLUS" else r.difficulty != "PLUS")

/-- Descending order on the patch column, the ORDER BY desc(patch) of
get_top_50_patch_results. -/
def patchGe (a b : DecodeResult) : Prop :=
  b.patch ≤ a.patch

instance : DecidableRel patchGe := fun a b =>
  inferInstanceAs (Decidable (b.patch ≤ a.patch))

instance : IsTotal DecodeResult patchGe :=
  ⟨fun a b => (le_total b.patch a.patch).elim Or.inl Or.inr⟩

instance : IsTrans DecodeResult patchGe :=
  ⟨fun _ _ _ h1 h2 => le_trans h2 h1⟩

/-- Embedding of Decoder.get_top_50_patch_results (models.py lines 179 to 203):
filter to the decoder, line and PLUS mode, order by patch descending, limit 50.
The SQL sort is modelled by a stable insertion sort on the stored row order. -/
def get_top_50_patch_results (db : List DecodeResult) (name : String)
    (line : Int) ( is_plus : Bool) : List DecodeResult :=
  (List.insertionSort patchGe (db.filter (resultMatches name line is_plus))).take 50

/-- Embedding of Decoder.get_top_50_patch_sum (models.py lines 176 to 177). -/
def get_top_50_patch_sum (db : List DecodeResult) (name : String) (line : Int)
    ( is_plus : Bool) : Rat :=
  ((get_top_50_patch_results db name line is_plus).map (fun r => r.patch)).sum

/-- The threshold chain of Decoder.calculate_emblem (models.py lines 148 to
173), as a function of the top-50 patch total. -/
def emblemOfTotal (total_patch : Rat) : DecoderEmblem :=
  if total_patch < 5000 then .bit
  else if total_patch < 10000 then .nibble
  else if total_patch < 15000 then .Byte
  else if total_patch < 20000 then .deca
  else if total_patch < 25000 then .hecto
  else if total_patch < 30000 then .kilo
  else if total_patch < 35000 then .Mega
  else if total_patch < 40000 then .Giga
  else if total_patch < 45000 then .Tera
  else if total_patch < 50000 then .Peta
  else if total_patch < 55000 then .Exa
  else if total_patch < 60000 then .Zeta
  else .Yotta

/-- Embedding of Decoder.calculate_emblem (models.py lines 142 to 174). -/
def calculate_emblem (db : List DecodeResult) (name : String) (line : Int)
    ( is_plus : Bool) : Rat × DecoderEmblem :=
  (get_top_50_patch_sum db name line is_plus,
   emblemOfTotal (get_top_50_patch_sum db name line is_plus))

/-- The pattern-side filter of Decoder.get_status. -/
def patternMatches (line : Int) ( is_plus : Bool) (p : PlatinaPattern) : Bool :=
  p.line == line &&
    (if is_plus then p.difficulty == "PLUS" else p.difficulty != "PLUS")

/-- Return shape of Decoder.get_status (TypedDict DecoderStatus). -/
structure DecoderStatus where
  decoder : String
  line : Int
  is_plus : Bool
  total_patterns : Nat
  cleared_patterns : Nat
  full_combo_patterns : Nat
  perfect_decode_patterns : Nat
  max_patch_patterns : Nat
deriving DecidableEq, Repr

/-- Embedding of Decoder.get_status (models.py lines 205 to 262).  The three
sub-counts reapply the decoder condition exactly as the source appends it to
the base select. -/
def get_status (patterns : List PlatinaPattern) (db : List DecodeResult)
    (name : String) (line : Int) ( is_plus : Bool) : DecoderStatus :=
  let cleared := db.filter (resultMatches name line is_plus)
  { decoder := name
    line := line
    is_plus := is_plus
    total_patterns := (patterns.filter (patternMatches line is_plus)).length
    cleared_patterns := cleared.length
    full_combo_patterns :=
      (cleared.filter (fun r => r.decoder == name && r.is_full_combo)).length
    perfect_decode_patterns :=
      (cleared.filter (fun r => r.decoder == name && decide (r.judge = 100))).length
    max_patch_patterns :=
      (cleared.filter (fun r => r.decoder == name && r.is_max_patch)).length }

/-! ### Credential store (models.py, Decoder.load_by_key) -/

/-- Python exception raised by unpacking key.split into two names when the
split does not yield exactly two parts. -/
inductive PyError where
  | valueError
deriving DecidableEq, Repr

/-- Python str.split with the two-character separator of the API key, on the
character list of the string: greedy left-to-right, empty chunks kept, one
chunk when the separator is absent. -/
def splitOnSep : List Char → List (List Char)
  | [] => [[]]
  | ':' :: ':' :: rest => [] :: splitOnSep rest
  | c :: rest =>
      match splitOnSep rest with
      | [] => [[c]]
      | h :: t => (c :: h) :: t

/-- Embedding of Decoder.load_by_key (models.py lines 286 to 296).  The sha256
hexdigest is modelled by the abstract digest function H; compare_digest is
string equality (its constant-time execution has no observable value-level
effect).  Following Python, the unpacking of key.split into exactly a name and
a secret raises a ValueError when the separator count is not exactly one. -/
def load_by_key (H : String → String) (decoders : List Decoder) (key : String) :
    Except PyError (Option Decoder) :=
  match (splitOnSep key.toList).map String.mk with
  | [name, given_secret] =>
      match decoders.find? (fun d => d.name == name) with
      | none => .ok none
      | some decoder =>
          if H given_secret == decoder.hashed_secret then .ok (some decoder)
          else .ok none
  | _ => .error .valueError

/-! ### Submission endpoint (api/routes.py, _update_db_archive)

The JSON request body is a Python dict, so each field can hold a value of any
JSON type.  PyVal models the possible values; the isinstance checks of the
route follow Python semantics, where bool is a subclass of int. -/

inductive PyVal where
  | none
  | int (n : Int)
  | float (q : Rat)
  | bool (b : Bool)
  | str (s : String)
deriving DecidableEq, Repr

/-- Python isinstance(v, float) or isinstance(v, int); a bool is an int. -/
def PyVal.isNumber : PyVal → Bool
  | .int _ => true
  | .float _ => true
  | .bool _ => true
  | _ => false

/-- Python isinstance(v, int); a bool is an int. -/
def PyVal.isIntLike : PyVal → Bool
  | .int _ => true
  | .bool _ => true
  | _ => false

/-- Python isinstance(v, bool). -/
def PyVal.isBoolVal : PyVal → Bool
  | .bool _ => true
  | _ => false

/-- Numeric value of a Python number (True counts as 1, False as 0). -/
def PyVal.toRat : PyVal → Rat
  | .int n => n
  | .float q => q
  | .bool b => if b then 1 else 0
  | _ => 0

/-- Value stored when a validated Python number lands in an integer column. -/
def PyVal.toInt : PyVal → Int
  | .int n => n
  | .bool b => if b then 1 else 0
  | .float q => ⌊q⌋
  | _ => 0

/-- Value stored when a validated Python string lands in a string column. -/
def PyVal.toStr : PyVal → String
  | .str s => s
  | _ => ""

/-- Value stored when a validated Python bool lands in a boolean column. -/
def PyVal.toBool : PyVal → Bool
  | .bool b => b
  | _ => false

/-- Python equality between a JSON value and an int constant, as used by the
membership tests line in (4, 6) and level in available_levels. -/
def PyVal.eqInt (v : PyVal) (m : Int) : Bool :=
  match v with
  | .int n => n == m
  | .float q => q == (m : Rat)
  | .bool b => (if b then (1 : Int) else 0) == m
  | _ => false

/-- Python equality between a JSON value and a string constant. -/
def PyVal.eqStr (v : PyVal) (s : String) : Bool :=
  match v with
  | .str t => t == s
  | _ => false

/-- The nine request-body fields read by _update_db_archive; a field missing
from the JSON dict is PyVal.none (params.get returns Python None). -/
structure SubmitParams where
  song_id : PyVal
  line : PyVal
  difficulty : PyVal
  level : PyVal
  judge : PyVal
  score : PyVal
  patch : PyVal
  is_full_combo : PyVal
  is_max_patch : PyVal
deriving DecidableEq, Repr

/-- Embedding of PlatinaSong.query.get(song_id): primary-key lookup in the
PlatinaSongs table, modelled by its list of song ids.  JSON integers arrive as
Python ints; a non-integer value finds no row. -/
def songLookup (songs : List Int) (v : PyVal) : Option Int :=
  match v with
  | .int n => if songs.contains n then some n else Option.none
  | _ => Option.none

/-- Embedding of PlatinaSong.get_available_levels (models.py lines 97 to 102):
levels of the patterns of the song matching the given line and difficulty.
The song.patterns relationship is the set of pattern rows with this songID,
and the comparisons against the raw request values use Python equality. -/
def get_available_levels (patterns : List PlatinaPattern) (song_id : Int)
    (line difficulty : PyVal) : List Int :=
  (patterns.filter (fun p =>
      p.song_id == song_id && line.eqInt p.line && difficulty.eqStr p.difficulty)).map
    (fun p => p.level)

/-- Check line in (4, 6) of routes.py line 190. -/
def lineValid (params : SubmitParams) : Bool :=
  params.line.eqInt 4 || params.line.eqInt 6

/-- Check difficulty in (EASY, HARD, OVER, PLUS) of routes.py line 192. -/
def difficultyValid (params : SubmitParams) : Bool :=
  params.difficulty.eqStr "EASY" || params.difficulty.eqStr "HARD" ||
    params.difficulty.eqStr "OVER" || params.difficulty.eqStr "PLUS"

/-- Check level in available_levels of routes.py lines 194 to 195. -/
def levelValid (patterns : List PlatinaPattern) (song_id : Int)
    (params : SubmitParams) : Bool :=
  (get_available_levels patterns song_id params.line params.difficulty).any
    (fun lv => params.level.eqInt lv)

/-- Rejection test of routes.py lines 197 to 201: judge is not a number, or
it is negative, or above 100 (short-circuit or, as in Python). -/
def judgeInvalid (params : SubmitParams) : Bool :=
  !params.judge.isNumber || decide (params.judge.toRat < 0) ||
    decide (100 < params.judge.toRat)

/-- Rejection test of routes.py line 203: score not an int, or negative. -/
def scoreInvalid (params : SubmitParams) : Bool :=
  !params.score.isIntLike || decide (params.score.toInt < 0)

/-- Rejection test of routes.py line 205: patch not a number, or negative. -/
def patchInvalid (params : SubmitParams) : Bool :=
  !params.patch.isNumber || decide (params.patch.toRat < 0)

/-- One distinct rejection reason per validation check of _update_db_archive
(the distinct JSON msg strings and status codes of routes.py lines 188-210). -/
inductive RejectReason where
  | unknownSongId
  | invalidLine
  | invalidDifficulty
  | invalidLevel
  | invalidJudge
  | invalidScore
  | invalidPatch
  | invalidIsFullCombo
  | invalidIsMaxPatch
deriving DecidableEq, Repr

/-- Outcome of the submission endpoint. -/
inductive UpdateResponse where
  | success
  | rejected (reason : RejectReason)
deriving DecidableEq, Repr

/-- Embedding of _update_db_archive (api/routes.py lines 171 to 227) from the
point where the bearer key has been resolved to a decoder name (the key
resolution itself is load_by_key, modelled above).  Checks run in source
order; the first failure returns its reason and leaves the store untouched;
when all pass the store is updated through update_or_make.  The commit always
succeeds in this model, so the failed branch of routes.py line 227 does not
arise. -/
def _update_db_archive (songs : List Int) (patterns : List PlatinaPattern)
    (db : List DecodeResult) (decoderName : String) (params : SubmitParams)
    (now : Nat) : UpdateResponse × List DecodeResult :=
  match songLookup songs params.song_id with
  | Option.none => (.rejected .unknownSongId, db)
  | some song_id =>
    if !lineValid params then (.rejected .invalidLine, db)
    else if !difficultyValid params then (.rejected .invalidDifficulty, db)
    else if !levelValid patterns song_id params then (.rejected .invalidLevel, db)
    else if judgeInvalid params then (.rejected .invalidJudge, db)
    else if scoreInvalid params then (.rejected .invalidScore, db)
    else if patchInvalid params then (.rejected .invalidPatch, db)
    else if !params.is_full_combo.isBoolVal then (.rejected .invalidIsFullCombo, db)
    else if !params.is_max_patch.isBoolVal then (.rejected .invalidIsMaxPatch, db)
    else
      (.success,
       update_or_make db decoderName song_id params.line.toInt
         params.difficulty.toStr params.level.toInt params.judge.toRat
         params.score.toInt params.patch.toRat params.is_full_combo.toBool
         params.is_max_patch.toBool now)

/-! ### Progress recorder (scripts/update_decoder_progress.py) -/

/-- Rows of the DecoderProgress table belonging to one decoder and one line
label, in stored order: the filter of DecoderProgress.get_latest_progress. -/
def lineHistory (db : List DecoderProgress) (decoder line : String) :
    List DecoderProgress :=
  db.filter (fun p => p.decoder == decoder && p.line == line)

/-- Descending order on recorded_at, the ORDER BY desc(recorded_at) of
get_latest_progress. -/
def recordedDesc (a b : DecoderProgress) : Prop :=
  b.recorded_at ≤ a.recorded_at

instance : DecidableRel recordedDesc := fun a b =>
  inferInstanceAs (Decidable (b.recorded_at ≤ a.recorded_at))

instance : IsTotal DecoderProgress recordedDesc :=
  ⟨fun a b => (le_total b.recorded_at a.recorded_at).elim Or.inl Or.inr⟩

instance : IsTrans DecoderProgress recordedDesc :=
  ⟨fun _ _ _ h1 h2 => le_trans h2 h1⟩

/-- Embedding of DecoderProgress.get_latest_progress (models.py lines 57 to
65): first row of the filtered table ordered by recorded_at descending. -/
def get_latest_progress (db : List DecoderProgress) (decoder line : String) :
    Option DecoderProgress :=
  (List.insertionSort recordedDesc (lineHistory db decoder line)).head?

/-- The repeated condition of update_decoder_progress: a snapshot is appended
when no snapshot exists or the stored latest total is strictly below the
current one (db_X is None or db_X.total less than current_X_total). -/
def needsNewSnapshot (latest : Option DecoderProgress) (current : Rat) : Bool :=
  match latest with
  | Option.none => true
  | some p => decide (p.total < current)

/-- Embedding of update_decoder_progress (scripts/update_decoder_progress.py
lines 19 to 80) for one decoder: the four current top-50 sums and the four
latest snapshots are read first, then a fresh row is appended per line whose
condition holds, and the batch is committed.  The four datetime.now calls of
one invocation are modelled by the single timestamp now. -/
def update_decoder_progress (resDb : List DecodeResult)
    (progDb : List DecoderProgress) (name : String) (now : Nat) :
    List DecoderProgress :=
  let current_4l_total := get_top_50_patch_sum resDb name 4 false
  let current_4l_plus_total := get_top_50_patch_sum resDb name 4 true
  let current_6l_total := get_top_50_patch_sum resDb name 6 false
  let current_6l_plus_total := get_top_50_patch_sum resDb name 6 true
  let db_4l := get_latest_progress progDb name "4L"
  let db_4l_plus := get_latest_progress progDb name "4L+"
  let db_6l := get_latest_progress progDb name "6L"
  let db_6l_plus := get_latest_progress progDb name "6L+"
  let s1 := if needsNewSnapshot db_4l current_4l_total then
      progDb ++ [⟨name, "4L", current_4l_total, now⟩] else progDb
  let s2 := if needsNewSnapshot db_4l_plus current_4l_plus_total then
      s1 ++ [⟨name, "4L+", current_4l_plus_total, now⟩] else s1
  let s3 := if needsNewSnapshot db_6l current_6l_total then
      s2 ++ [⟨name, "6L", current_6l_total, now⟩] else s2
  if needsNewSnapshot db_6l_plus current_6l_plus_total then
      s3 ++ [⟨name, "6L+", current_6l_plus_total, now⟩] else s3

/-- The top-50 sum the script computes for a given line label: the label picks
the (line, is_plus) pair of the corresponding block of the script. -/
def lineLabelSum (resDb : List DecodeResult) (name : String) (lbl : String) : Rat :=
  if lbl = "4L" then get_top_50_patch_sum resDb name 4 false
  else if lbl = "4L+" then get_top_50_patch_sum resDb name 4 true
  else if lbl = "6L" then get_top_50_patch_sum resDb name 6 false
  else get_top_50_patch_sum resDb name 6 true

/-- The per-line history invariant: along stored order, recorded_at and total
are both strictly increasing. -/
def strictlyIncreasing (l : List DecoderProgress) : Prop :=
  l.Pairwise (fun p q => p.recorded_at < q.recorded_at ∧ p.total < q.total)

/-! ### Concrete fixtures used by witnesses and counterexamples -/

/-- A catalog pattern: song 1, line 4, EASY, level 3. -/
def pat0 : PlatinaPattern :=
  { song_id := 1, line := 4, difficulty := "EASY", level := 3, designer := "NIMO" }

/-- A stored personal best of player Ada on that chart: judge 95. -/
def r0 : DecodeResult :=
  { decoder := "Ada", song_id := 1, line := 4, difficulty := "EASY", level := 3
    judge := 95, score := 900000, patch := 1200, decoded_at := 0
    is_full_combo := false, is_max_patch := false
    old_judge := 0, old_score := 0, old_patch := 0
    old_is_full_combo := false, old_is_max_patch := false }

/-- The same stored best, but with a shadow judge differing from the live one. -/
def r2 : DecodeResult :=
  { r0 with old_judge := 80 }

/-- A valid submission for that chart: judge 90, strictly worse than r0. -/
def params1 : SubmitParams :=
  { song_id := .int 1, line := .int 4, difficulty := .str "EASY", level := .int 3
    judge := .int 90, score := .int 850000, patch := .float 1000
    is_full_combo := .bool false, is_max_patch := .bool false }

/-! ### Helper lemmas on the score ledger -/

theorem resultKey_overwriteRecord (r : DecodeResult) (j : Rat) (sc : Int) (p : Rat)
    (fc mp : Bool) (now : Nat) :
    resultKey (overwriteRecord r j sc p fc mp now) = resultKey r :=
  rfl

theorem update_or_make_found (db : List DecodeResult) (d : String) (s li : Int)
    (df : String) (lv : Int) (j : Rat) (sc : Int) (p : Rat) (fc mp : Bool)
    (now : Nat) (rec : DecodeResult)
    (h : findResult db (d, s, li, df, lv) = some rec) :
    update_or_make db d s li df lv j sc p fc mp now
      = db.map (fun r =>
          if resultKey r = (d, s, li, df, lv) then overwriteRecord r j sc p fc mp now
          else r) := by
  unfold update_or_make
  rw [h]

theorem findResult_map_overwrite (db : List DecodeResult)
    (k : String × Int × Int × String × Int) (j : Rat) (sc : Int) (p : Rat)
    (fc mp : Bool) (now : Nat) :
    findResult
        (db.map (fun r =>
          if resultKey r = k then overwriteRecord r j sc p fc mp now else r)) k
      = (findResult db k).map (fun r => overwriteRecord r j sc p fc mp now) := by
  induction db with
  | nil => rfl
  | cons a t ih =>
      by_cases hk : resultKey a = k
      · simp [findResult, List.find?_cons, if_pos hk, resultKey_overwriteRecord, hk]
      · simp only [List.map_cons, if_neg hk, findResult, List.find?_cons] at ih ⊢
        rw [decide_eq_false hk]
        exact ih

/-! ### Claims C1 and C2: the write policy of the score ledger -/

/-- C1 counterexample: the submission params1 (judge 90, score 850000) is valid
and does not improve on the stored record r0 (judge 95), yet _update_db_archive
accepts it and the stored record for the chart of r0 is no longer r0: the
best-only policy of the claim does not hold. -/
theorem c1_counterexample_nonimproving_overwrites :
    (_update_db_archive [1] [pat0] [r0] "Ada" params1 5).1 = .success ∧
    findResult ((_update_db_archive [1] [pat0] [r0] "Ada" params1 5).2)
        ("Ada", 1, 4, "EASY", 3) ≠ some r0 := by
  decide

/-- C1 amended: update_or_make applies the always-overwrite policy.  Whenever a
record with the submitted key is stored, the call replaces its judge, score,
patch and flags with the submitted values, archives the previous live values
into the shadow fields and refreshes decoded_at, whether or not the submission
improves on the stored judge and score; no row is inserted or removed, and rows
with other keys are kept. -/
theorem c1_update_always_overwrites (db : List DecodeResult) (d : String)
    (s li : Int) (df : String) (lv : Int) (j : Rat) (sc : Int) (p : Rat)
    (fc mp : Bool) (now : Nat) (rec : DecodeResult)
    (h : findResult db (d, s, li, df, lv) = some rec) :
    findResult (update_or_make db d s li df lv j sc p fc mp now) (d, s, li, df, lv)
        = some (overwriteRecord rec j sc p fc mp now) ∧
    (update_or_make db d s li df lv j sc p fc mp now).length = db.length ∧
    ∀ r ∈ db, resultKey r ≠ (d, s, li, df, lv) →
      r ∈ update_or_make db d s li df lv j sc p fc mp now := by
  rw [update_or_make_found db d s li df lv j sc p fc mp now rec h]
  refine ⟨?_, by simp, ?_⟩
  · rw [findResult_map_overwrite, h]
    rfl
  · intro r hr hne
    exact List.mem_map.mpr ⟨r, hr, by rw [if_neg hne]⟩

theorem c1_update_always_overwrites_witness :
    findResult (update_or_make [r0] "Ada" 1 4 "EASY" 3 90 850000 1000 false false 5)
        ("Ada", 1, 4, "EASY", 3)
        = some (overwriteRecord r0 90 850000 1000 false false 5) ∧
    (update_or_make [r0] "Ada" 1 4 "EASY" 3 90 850000 1000 false false 5).length
        = ([r0] : List DecodeResult).length ∧
    ∀ r ∈ ([r0] : List DecodeResult), resultKey r ≠ ("Ada", 1, 4, "EASY", 3) →
      r ∈ update_or_make [r0] "Ada" 1 4 "EASY" 3 90 850000 1000 false false 5 :=
  c1_update_always_overwrites [r0] "Ada" 1 4 "EASY" 3 90 850000 1000 false false 5 r0
    (by decide)

/-- C2 counterexample: the record r2 stores judge 95 with shadow judge 80;
resubmitting the identical result (judge 95, score 900000, patch 1200, both
flags false) changes the shadow judge, from 80 to 95, so the second call with
an identical result is not idempotent on the shadow fields. -/
theorem c2_counterexample_identical_resubmission_changes_shadow :
    (findResult (update_or_make [r2] "Ada" 1 4 "EASY" 3 95 900000 1200 false false 7)
        ("Ada", 1, 4, "EASY", 3)).map (fun r => r.old_judge)
      ≠ some r2.old_judge := by
  decide

/-- C2 amended: resubmitting a result identical to the stored record copies the
(identical) live values into the shadow fields.  Hence the shadow fields are
unchanged by the call precisely when they already equal the live values, as
they do from the first identical resubmission onward; there is no best-only
comparison gating the write. -/
theorem c2_identical_resubmission_shadow (db : List DecodeResult) (d : String)
    (s li : Int) (df : String) (lv : Int) (j : Rat) (sc : Int) (p : Rat)
    (fc mp : Bool) (now : Nat) (rec : DecodeResult)
    (h : findResult db (d, s, li, df, lv) = some rec)
    (hj : rec.judge = j) (hs : rec.score = sc) (hp : rec.patch = p)
    (hfc : rec.is_full_combo = fc) (hmp : rec.is_max_patch = mp) :
    ∃ rec2,
      findResult (update_or_make db d s li df lv j sc p fc mp now)
          (d, s, li, df, lv) = some rec2 ∧
      rec2.old_judge = j ∧ rec2.old_score = sc ∧ rec2.old_patch = p ∧
      rec2.old_is_full_combo = fc ∧ rec2.old_is_max_patch = mp ∧
      ((rec.old_judge = rec.judge ∧ rec.old_score = rec.score ∧
        rec.old_patch = rec.patch ∧ rec.old_is_full_combo = rec.is_full_combo ∧
        rec.old_is_max_patch = rec.is_max_patch) →
        (rec2.old_judge = rec.old_judge ∧ rec2.old_score = rec.old_score ∧
         rec2.old_patch = rec.old_patch ∧
         rec2.old_is_full_combo = rec.old_is_full_combo ∧
         rec2.old_is_max_patch = rec.old_is_max_patch)) := by
  refine ⟨overwriteRecord rec j sc p fc mp now, ?_, hj ▸ rfl, hs ▸ rfl, hp ▸ rfl,
    hfc ▸ rfl, hmp ▸ rfl, ?_⟩
  · rw [update_or_make_found db d s li df lv j sc p fc mp now rec h,
      findResult_map_overwrite, h]
    rfl
  · rintro ⟨e1, e2, e3, e4, e5⟩
    exact ⟨by simp [overwriteRecord, e1], by simp [overwriteRecord, e2],
      by simp [overwriteRecord, e3], by simp [overwriteRecord, e4],
      by simp [overwriteRecord, e5]⟩

theorem c2_identical_resubmission_shadow_witness :
    ∃ rec2,
      findResult (update_or_make [r2] "Ada" 1 4 "EASY" 3 95 900000 1200 false false 7)
          ("Ada", 1, 4, "EASY", 3) = some rec2 ∧
      rec2.old_judge = 95 ∧ rec2.old_score = 900000 ∧ rec2.old_patch = 1200 ∧
      rec2.old_is_full_combo = false ∧ rec2.old_is_max_patch = false ∧
      ((r2.old_judge = r2.judge ∧ r2.old_score = r2.score ∧
        r2.old_patch = r2.patch ∧ r2.old_is_full_combo = r2.is_full_combo ∧
        r2.old_is_max_patch = r2.is_max_patch) →
        (rec2.old_judge = r2.old_judge ∧ rec2.old_score = r2.old_score ∧
         rec2.old_patch = r2.old_patch ∧
         rec2.old_is_full_combo = r2.old_is_full_combo ∧
         rec2.old_is_max_patch = r2.old_is_max_patch)) :=
  c2_identical_resubmission_shadow [r2] "Ada" 1 4 "EASY" 3 95 900000 1200 false false 7
    r2 (by decide) (by decide) (by decide) (by decide) (by decide) (by decide)

/-! ### Claim C9: first submission -/

/-- C9: when no record is stored under the submitted key, update_or_make
appends exactly one fresh row whose live fields are the submitted values,
whose decoded_at is the submission time, and whose five shadow fields are the
zero values. -/
theorem c9_first_submission_creates_record (db : List DecodeResult) (d : String)
    (s li : Int) (df : String) (lv : Int) (j : Rat) (sc : Int) (p : Rat)
    (fc mp : Bool) (now : Nat)
    (h : findResult db (d, s, li, df, lv) = Option.none) :
    update_or_make db d s li df lv j sc p fc mp now
      = db ++ [{ decoder := d, song_id := s, line := li, difficulty := df
                 level := lv, judge := j, score := sc, patch := p
                 decoded_at := now, is_full_combo := fc, is_max_patch := mp
                 old_judge := 0, old_score := 0, old_patch := 0
                 old_is_full_combo := false, old_is_max_patch := false }] := by
  unfold update_or_make
  rw [h]

theorem c9_first_submission_creates_record_witness :
    update_or_make [] "Ada" 1 4 "EASY" 3 95 900000 1200 false false 5
      = [] ++ [{ decoder := "Ada", song_id := 1, line := 4, difficulty := "EASY"
                 level := 3, judge := 95, score := 900000, patch := 1200
                 decoded_at := 5, is_full_combo := false, is_max_patch := false
                 old_judge := 0, old_score := 0, old_patch := 0
                 old_is_full_combo := false, old_is_max_patch := false }] :=
  c9_first_submission_creates_record [] "Ada" 1 4 "EASY" 3 95 900000 1200 false false 5
    rfl

/-! ### Claim C10: status sub-counts -/

/-- C10: in every status, each of the full-combo, perfect-decode and max-patch
counts is at most the cleared count, since each counts a further-filtered
subset of the same filtered result set. -/
theorem c10_status_subcounts_le_cleared (patterns : List PlatinaPattern)
    (db : List DecodeResult) (name : String) (line : Int) ( is_plus : Bool) :
    (get_status patterns db name line is_plus).full_combo_patterns
        ≤ (get_status patterns db name line is_plus).cleared_patterns ∧
    (get_status patterns db name line is_plus).perfect_decode_patterns
        ≤ (get_status patterns db name line is_plus).cleared_patterns ∧
    (get_status patterns db name line is_plus).max_patch_patterns
        ≤ (get_status patterns db name line is_plus).cleared_patterns := by
  refine ⟨?_, ?_, ?_⟩ <;> simp only [get_status] <;> exact List.length_filter_le _ _

/-! ### Claim C7: bearer-key verification -/

/-- C7: load_by_key is not total on malformed keys.  For every digest function
and every decoder table, a presented key without the separator, or with two
separators, makes the tuple unpacking of the split raise a ValueError instead
of returning the none the specification requires; the route turns this into an
unhandled server error. -/
theorem c7_load_by_key_malformed_key_raises (H : String → String)
    (decoders : List Decoder) :
    load_by_key H decoders "Ada" = .error .valueError ∧
    load_by_key H decoders "a::b::c" = .error .valueError := by
  refine ⟨?_, ?_⟩
  · have h1 : (splitOnSep "Ada".toList).map String.mk = ["Ada"] := by decide
    unfold load_by_key
    rw [h1]
  · have h2 : (splitOnSep "a::b::c".toList).map String.mk = ["a", "b", "c"] := by decide
    unfold load_by_key
    rw [h2]

/-! ### Claim C4: emblem tiers -/

theorem floorDiv5000_eq (t : Rat) (k : Nat) (h1 : (5000 * k : Rat) ≤ t)
    (h2 : t < 5000 * (k + 1)) : ⌊t / 5000⌋ = k := by
  rw [Int.floor_eq_iff]
  constructor
  · rw [le_div_iff (by norm_num : (0 : Rat) < 5000)]
    push_cast
    linarith
  · rw [div_lt_iff (by norm_num : (0 : Rat) < 5000)]
    push_cast
    linarith

set_option maxHeartbeats 2000000 in
theorem emblemIndex_emblemOfTotal (t : Rat) (ht : 0 ≤ t) :
    emblemIndex (emblemOfTotal t) = min (⌊t / 5000⌋.toNat) 12 := by
  unfold emblemOfTotal
  split_ifs with h1 h2 h3 h4 h5 h6 h7 h8 h9 h10 h11 h12
  · rw [floorDiv5000_eq t 0 (by push_cast; linarith) (by push_cast; linarith)]
    decide
  · rw [floorDiv5000_eq t 1 (by push_cast; linarith) (by push_cast; linarith)]
    decide
  · rw [floorDiv5000_eq t 2 (by push_cast; linarith) (by push_cast; linarith)]
    decide
  · rw [floorDiv5000_eq t 3 (by push_cast; linarith) (by push_cast; linarith)]
    decide
  · rw [floorDiv5000_eq t 4 (by push_cast; linarith) (by push_cast; linarith)]
    decide
  · rw [floorDiv5000_eq t 5 (by push_cast; linarith) (by push_cast; linarith)]
    decide
  · rw [floorDiv5000_eq t 6 (by push_cast; linarith) (by push_cast; linarith)]
    decide
  · rw [floorDiv5000_eq t 7 (by push_cast; linarith) (by push_cast; linarith)]
    decide
  · rw [floorDiv5000_eq t 8 (by push_cast; linarith) (by push_cast; linarith)]
    decide
  · rw [floorDiv5000_eq t 9 (by push_cast; linarith) (by push_cast; linarith)]
    decide
  · rw [floorDiv5000_eq t 10 (by push_cast; linarith) (by push_cast; linarith)]
    decide
  · rw [floorDiv5000_eq t 11 (by push_cast; linarith) (by push_cast; linarith)]
    decide
  · have h60 : (12 : Int) ≤ ⌊t / 5000⌋ := by
      rw [Int.le_floor, le_div_iff (by norm_num : (0 : Rat) < 5000)]
      push_cast
      linarith
    have h60n : 12 ≤ ⌊t / 5000⌋.toNat := by omega
    rw [Nat.min_eq_right h60n]
    decide

/-- C4: for every non-negative total, the tier index of the emblem is the step
function min(floor(total/5000), 12) over the thirteen ordered tiers, hence
monotone non-decreasing in the total; each exact multiple of 5000 up to 60000
lands in the higher tier; and calculate_emblem pairs the top-50 sum with the
tier of that sum. -/
theorem c4_emblem_step_monotone (t u : Rat) (ht : 0 ≤ t) (htu : t ≤ u) :
    emblemIndex (emblemOfTotal t) = min (⌊t / 5000⌋.toNat) 12 ∧
    emblemIndex (emblemOfTotal t) ≤ emblemIndex (emblemOfTotal u) ∧
    emblemOfTotal 0 = .bit ∧ emblemOfTotal 5000 = .nibble ∧
    emblemOfTotal 10000 = .Byte ∧ emblemOfTotal 15000 = .deca ∧
    emblemOfTotal 20000 = .hecto ∧ emblemOfTotal 25000 = .kilo ∧
    emblemOfTotal 30000 = .Mega ∧ emblemOfTotal 35000 = .Giga ∧
    emblemOfTotal 40000 = .Tera ∧ emblemOfTotal 45000 = .Peta ∧
    emblemOfTotal 50000 = .Exa ∧ emblemOfTotal 55000 = .Zeta ∧
    emblemOfTotal 60000 = .Yotta ∧
    ∀ (db : List DecodeResult) (name : String) (line : Int) ( is_plus : Bool),
      calculate_emblem db name line is_plus
        = (get_top_50_patch_sum db name line is_plus,
           emblemOfTotal (get_top_50_patch_sum db name line is_plus)) := by
  refine ⟨emblemIndex_emblemOfTotal t ht, ?_, by decide, by decide, by decide,
    by decide, by decide, by decide, by decide, by decide, by decide, by decide,
    by decide, by decide, by decide, fun db name line ip => rfl⟩
  rw [emblemIndex_emblemOfTotal t ht, emblemIndex_emblemOfTotal u (ht.trans htu)]
  exact min_le_min
    (Int.toNat_le_toNat (Int.floor_mono
      ((div_le_div_right (by norm_num : (0 : Rat) < 5000)).mpr htu)))
    le_rfl

theorem c4_emblem_step_monotone_witness :
    emblemIndex (emblemOfTotal 5000) = min (⌊(5000 : Rat) / 5000⌋.toNat) 12 ∧
    emblemIndex (emblemOfTotal 5000) ≤ emblemIndex (emblemOfTotal 60000) ∧
    emblemOfTotal 0 = .bit ∧ emblemOfTotal 5000 = .nibble ∧
    emblemOfTotal 10000 = .Byte ∧ emblemOfTotal 15000 = .deca ∧
    emblemOfTotal 20000 = .hecto ∧ emblemOfTotal 25000 = .kilo ∧
    emblemOfTotal 30000 = .Mega ∧ emblemOfTotal 35000 = .Giga ∧
    emblemOfTotal 40000 = .Tera ∧ emblemOfTotal 45000 = .Peta ∧
    emblemOfTotal 50000 = .Exa ∧ emblemOfTotal 55000 = .Zeta ∧
    emblemOfTotal 60000 = .Yotta ∧
    ∀ (db : List DecodeResult) (name : String) (line : Int) ( is_plus : Bool),
      calculate_emblem db name line is_plus
        = (get_top_50_patch_sum db name line is_plus,
           emblemOfTotal (get_top_50_patch_sum db name line is_plus)) :=
  c4_emblem_step_monotone 5000 60000 (by norm_num) (by norm_num)

/-! ### Claim C5: top-50 selection and sum -/

/-- C5: the top-50 query returns only results of the given player, line and
PLUS mode, sorted by patch descending, of length min(50, matching results); it
is a sub-multiset of the matching results; every matching result left out has
patch at most that of every returned one; and the top-50 patch sum is the sum
of patch over the returned sequence.  The query is a pure function of the
stored table, so repeated calls on unchanged data return the same sequence. -/
theorem c5_top50_selection (db : List DecodeResult) (name : String) (line : Int)
    ( is_plus : Bool) :
    (∀ r ∈ get_top_50_patch_results db name line is_plus,
        resultMatches name line is_plus r = true) ∧
    List.Sorted patchGe (get_top_50_patch_results db name line is_plus) ∧
    (get_top_50_patch_results db name line is_plus).length
        = min 50 (db.filter (resultMatches name line is_plus)).length ∧
    List.Subperm (get_top_50_patch_results db name line is_plus)
        (db.filter (resultMatches name line is_plus)) ∧
    (∀ r ∈ db.filter (resultMatches name line is_plus),
        r ∉ get_top_50_patch_results db name line is_plus →
        ∀ s ∈ get_top_50_patch_results db name line is_plus, r.patch ≤ s.patch) ∧
    get_top_50_patch_sum db name line is_plus
        = ((get_top_50_patch_results db name line is_plus).map (fun r => r.patch)).sum := by
  refine ⟨?_, ?_, ?_, ?_, ?_, rfl⟩
  · intro r hr
    have h1 : r ∈ List.insertionSort patchGe (db.filter (resultMatches name line is_plus)) :=
      (List.take_sublist 50 _).subset hr
    exact List.of_mem_filter ((List.mem_insertionSort patchGe).mp h1)
  · exact (List.sorted_insertionSort patchGe _).sublist (List.take_sublist 50 _)
  · rw [get_top_50_patch_results, List.length_take, List.length_insertionSort]
  · exact ((List.take_sublist 50 _).subperm).trans
      (List.perm_insertionSort patchGe _).subperm
  · intro r hrf hrn s hs
    have hrS : r ∈ List.insertionSort patchGe (db.filter (resultMatches name line is_plus)) :=
      (List.mem_insertionSort patchGe).mpr hrf
    have hsplit :
        List.insertionSort patchGe (db.filter (resultMatches name line is_plus))
          = (List.insertionSort patchGe (db.filter (resultMatches name line is_plus))).take 50
            ++ (List.insertionSort patchGe (db.filter (resultMatches name line is_plus))).drop 50 :=
      (List.take_append_drop 50 _).symm
    have hsort := List.sorted_insertionSort patchGe (db.filter (resultMatches name line is_plus))
    rw [hsplit] at hrS hsort
    have hrd : r ∈ (List.insertionSort patchGe (db.filter (resultMatches name line is_plus))).drop 50 := by
      rcases List.mem_append.mp hrS with h | h
      · exact absurd h hrn
      · exact h
    exact (List.pairwise_append.mp hsort).2.2 s hs r hrd

/-! ### Claim C8: status totals -/

theorem patternMatches_of_resultMatches (line : Int) ( is_plus : Bool)
    (p : PlatinaPattern) (r : DecodeResult) (name : String)
    (hl : p.line = r.line) (hd : p.difficulty = r.difficulty)
    (h : resultMatches name line is_plus r = true) :
    patternMatches line is_plus p = true := by
  cases is_plus <;> simp_all [resultMatches, patternMatches]

/-- C8: total_patterns is the catalog count of patterns matching the line and
PLUS filter, independent of which player is queried; and, because every stored
result corresponds to a defined pattern and result keys are unique, the
cleared count never exceeds the total count. -/
theorem c8_total_patterns_and_cleared_bound (patterns : List PlatinaPattern)
    (db : List DecodeResult) (name other : String) (line : Int) ( is_plus : Bool)
    (hpat : (patterns.map patternKey).Nodup)
    (hres : (db.map resultKey).Nodup)
    (href : ∀ r ∈ db, ∃ p ∈ patterns, patternKey p = resultKey4 r) :
    (get_status patterns db name line is_plus).total_patterns
        = (patterns.filter (patternMatches line is_plus)).length ∧
    (get_status patterns db name line is_plus).total_patterns
        = (get_status patterns db other line is_plus).total_patterns ∧
    (get_status patterns db name line is_plus).cleared_patterns
        ≤ (get_status patterns db name line is_plus).total_patterns := by
  refine ⟨rfl, rfl, ?_⟩
  show (db.filter (resultMatches name line is_plus)).length
      ≤ (patterns.filter (patternMatches line is_plus)).length
  set L := db.filter (resultMatches name line is_plus) with hLdef
  have hsub : List.Sublist L db := List.filter_sublist _
  have hLkey : (L.map resultKey).Nodup := hres.sublist (hsub.map resultKey)
  have hdec : ∀ r ∈ L, r.decoder = name := by
    intro r hr
    have h := List.of_mem_filter hr
    simp only [resultMatches, Bool.and_eq_true, beq_iff_eq] at h
    exact h.1.1
  have hmm : L.map resultKey = (L.map resultKey4).map (fun t => (name, t)) := by
    rw [List.map_map]
    exact List.map_congr_left (fun r hr => by
      simp [resultKey, resultKey4, Function.comp, hdec r hr])
  have hM : (L.map resultKey4).Nodup :=
    List.Nodup.of_map _ (hmm ▸ hLkey)
  have hMsub : (L.map resultKey4)
      ⊆ (patterns.filter (patternMatches line is_plus)).map patternKey := by
    intro x hx
    rcases List.mem_map.mp hx with ⟨r, hrL, rfl⟩
    have hrdb : r ∈ db := List.mem_of_mem_filter hrL
    rcases href r hrdb with ⟨p, hpp, hpk⟩
    have hmatch := List.of_mem_filter hrL
    have hfields : p.song_id = r.song_id ∧ p.line = r.line ∧
        p.difficulty = r.difficulty ∧ p.level = r.level := by
      simpa [patternKey, resultKey4, Prod.ext_iff] using hpk
    exact List.mem_map.mpr ⟨p,
      List.mem_filter.mpr ⟨hpp,
        patternMatches_of_resultMatches line is_plus p r name hfields.2.1
          hfields.2.2.1 hmatch⟩, hpk⟩
  have hsp := (hM.subperm hMsub).length_le
  simpa using hsp

theorem c8_total_patterns_and_cleared_bound_witness :
    (get_status [pat0] [r0] "Ada" 4 false).total_patterns
        = (([pat0] : List PlatinaPattern).filter (patternMatches 4 false)).length ∧
    (get_status [pat0] [r0] "Ada" 4 false).total_patterns
        = (get_status [pat0] [r0] "Bob" 4 false).total_patterns ∧
    (get_status [pat0] [r0] "Ada" 4 false).cleared_patterns
        ≤ (get_status [pat0] [r0] "Ada" 4 false).total_patterns :=
  c8_total_patterns_and_cleared_bound [pat0] [r0] "Ada" "Bob" 4 false
    (by decide) (by decide) (by decide)

/-! ### Claim C6: validation before mutation -/

/-- C6: the submission endpoint mutates nothing unless every validation check
passes: any rejection returns the store unchanged; each check, in source
order, yields its own rejection reason, and the nine reasons are pairwise
distinct; when all checks pass the store is updated through update_or_make. -/
theorem c6_validation_gates_mutation (songs : List Int)
    (patterns : List PlatinaPattern) (db : List DecodeResult) (name : String)
    (params : SubmitParams) (now : Nat) :
    ((_update_db_archive songs patterns db name params now).1 ≠ .success →
      (_update_db_archive songs patterns db name params now).2 = db) ∧
    (songLookup songs params.song_id = Option.none →
      _update_db_archive songs patterns db name params now
        = (.rejected .unknownSongId, db)) ∧
    (∀ sid, songLookup songs params.song_id = some sid →
      (lineValid params = false →
        _update_db_archive songs patterns db name params now
          = (.rejected .invalidLine, db)) ∧
      (lineValid params = true → difficultyValid params = false →
        _update_db_archive songs patterns db name params now
          = (.rejected .invalidDifficulty, db)) ∧
      (lineValid params = true → difficultyValid params = true →
        levelValid patterns sid params = false →
        _update_db_archive songs patterns db name params now
          = (.rejected .invalidLevel, db)) ∧
      (lineValid params = true → difficultyValid params = true →
        levelValid patterns sid params = true → judgeInvalid params = true →
        _update_db_archive songs patterns db name params now
          = (.rejected .invalidJudge, db)) ∧
      (lineValid params = true → difficultyValid params = true →
        levelValid patterns sid params = true → judgeInvalid params = false →
        scoreInvalid params = true →
        _update_db_archive songs patterns db name params now
          = (.rejected .invalidScore, db)) ∧
      (lineValid params = true → difficultyValid params = true →
        levelValid patterns sid params = true → judgeInvalid params = false →
        scoreInvalid params = false → patchInvalid params = true →
        _update_db_archive songs patterns db name params now
          = (.rejected .invalidPatch, db)) ∧
      (lineValid params = true → difficultyValid params = true →
        levelValid patterns sid params = true → judgeInvalid params = false →
        scoreInvalid params = false → patchInvalid params = false →
        params.is_full_combo.isBoolVal = false →
        _update_db_archive songs patterns db name params now
          = (.rejected .invalidIsFullCombo, db)) ∧
      (lineValid params = true → difficultyValid params = true →
        levelValid patterns sid params = true → judgeInvalid params = false →
        scoreInvalid params = false → patchInvalid params = false →
        params.is_full_combo.isBoolVal = true →
        params.is_max_patch.isBoolVal = false →
        _update_db_archive songs patterns db name params now
          = (.rejected .invalidIsMaxPatch, db)) ∧
      (lineValid params = true → difficultyValid params = true →
        levelValid patterns sid params = true → judgeInvalid params = false →
        scoreInvalid params = false → patchInvalid params = false →
        params.is_full_combo.isBoolVal = true →
        params.is_max_patch.isBoolVal = true →
        _update_db_archive songs patterns db name params now
          = (.success,
             update_or_make db name sid params.line.toInt params.difficulty.toStr
               params.level.toInt params.judge.toRat params.score.toInt
               params.patch.toRat params.is_full_combo.toBool
               params.is_max_patch.toBool now))) ∧
    ([RejectReason.unknownSongId, .invalidLine, .invalidDifficulty, .invalidLevel,
      .invalidJudge, .invalidScore, .invalidPatch, .invalidIsFullCombo,
      .invalidIsMaxPatch] : List RejectReason).Nodup := by
  have hnodup : ([RejectReason.unknownSongId, .invalidLine, .invalidDifficulty,
      .invalidLevel, .invalidJudge, .invalidScore, .invalidPatch,
      .invalidIsFullCombo, .invalidIsMaxPatch] : List RejectReason).Nodup := by
    decide
  cases hsid : songLookup songs params.song_id with
  | none =>
      refine ⟨?_, ?_, ?_, hnodup⟩ <;> simp [_update_db_archive, hsid]
  | some sid =>
      refine ⟨?_, ?_, fun sid2 hsid2 => ?_, hnodup⟩
      · simp only [_update_db_archive, hsid]
        split_ifs <;> simp
      · intro h
        exact absurd h (by simp)
      · obtain rfl : sid = sid2 := Option.some.inj hsid2
        refine ⟨?_, ?_, ?_, ?_, ?_, ?_, ?_, ?_, ?_⟩
        · intro h1
          simp [_update_db_archive, hsid, h1]
        · intro h1 h2
          simp [_update_db_archive, hsid, h1, h2]
        · intro h1 h2 h3
          simp [_update_db_archive, hsid, h1, h2, h3]
        · intro h1 h2 h3 h4
          simp [_update_db_archive, hsid, h1, h2, h3, h4]
        · intro h1 h2 h3 h4 h5
          simp [_update_db_archive, hsid, h1, h2, h3, h4, h5]
        · intro h1 h2 h3 h4 h5 h6
          simp [_update_db_archive, hsid, h1, h2, h3, h4, h5, h6]
        · intro h1 h2 h3 h4 h5 h6 h7
          simp [_update_db_archive, hsid, h1, h2, h3, h4, h5, h6, h7]
        · intro h1 h2 h3 h4 h5 h6 h7 h8
          simp [_update_db_archive, hsid, h1, h2, h3, h4, h5, h6, h7, h8]
        · intro h1 h2 h3 h4 h5 h6 h7 h8
          simp [_update_db_archive, hsid, h1, h2, h3, h4, h5, h6, h7, h8]

/-! ### Claim C3: progress recorder -/

theorem head_sort_desc_eq_getLast (l : List DecoderProgress)
    (h : l.Pairwise (fun p q => p.recorded_at < q.recorded_at)) :
    (List.insertionSort recordedDesc l).head? = l.getLast? := by
  rcases List.eq_nil_or_concat' l with rfl | ⟨l2, a, rfl⟩
  · rfl
  · rw [List.getLast?_concat]
    have hperm := List.perm_insertionSort recordedDesc (l2 ++ [a])
    have hne : List.insertionSort recordedDesc (l2 ++ [a]) ≠ [] := by
      intro h0
      have hlen := hperm.length_eq
      rw [h0] at hlen
      simp at hlen
    obtain ⟨x, t, hxt⟩ := List.exists_cons_of_ne_nil hne
    rw [hxt, List.head?_cons]
    have hsorted := List.sorted_insertionSort recordedDesc (l2 ++ [a])
    rw [hxt] at hsorted hperm
    have hxmem : x ∈ l2 ++ [a] := hperm.mem_iff.mp (List.mem_cons_self x t)
    have hax : a.recorded_at ≤ x.recorded_at := by
      have hamem : a ∈ x :: t := hperm.mem_iff.mpr (by simp)
      rcases List.mem_cons.mp hamem with he | hat
      · rw [he]
      · exact List.rel_of_sorted_cons hsorted a hat
    rcases List.mem_append.mp hxmem with hx2 | hxa
    · have hlt : x.recorded_at < a.recorded_at :=
        (List.pairwise_append.mp h).2.2 x hx2 a (by simp)
      omega
    · simp only [List.mem_singleton] at hxa
      rw [hxa]

theorem needsNewSnapshot_latest_iff (l : List DecoderProgress) (cur : Rat)
    (h : l.Pairwise (fun p q => p.recorded_at < q.recorded_at)) :
    needsNewSnapshot ((List.insertionSort recordedDesc l).head?) cur = true
      ↔ (l = [] ∨ ∃ p, (List.insertionSort recordedDesc l).head? = some p ∧
          p.total < cur) := by
  rw [head_sort_desc_eq_getLast l h]
  cases hl : l.getLast? with
  | none =>
      simp [needsNewSnapshot, List.getLast?_eq_none_iff.mp hl]
  | some p =>
      have hne : l ≠ [] := by
        intro h0
        rw [h0] at hl
        simp at hl
      simp [needsNewSnapshot, hne, hl]

theorem latest_total_ge (l2 : List DecoderProgress) (a : DecoderProgress)
    (hinc : strictlyIncreasing (l2 ++ [a])) :
    ∀ q ∈ l2 ++ [a], q.total ≤ a.total := by
  intro q hq
  rcases List.mem_append.mp hq with h2 | ha
  · exact le_of_lt ((List.pairwise_append.mp hinc).2.2 q h2 a (by simp)).2
  · simp only [List.mem_singleton] at ha
    rw [ha]

theorem snapshot_line_spec (old : List DecoderProgress) (name lbl : String)
    (cur : Rat) (now : Nat) (new : List DecoderProgress)
    (hnew : new = old ++
      (if needsNewSnapshot ((List.insertionSort recordedDesc old).head?) cur then
        [⟨name, lbl, cur, now⟩] else []))
    (hfresh : ∀ p ∈ old, p.recorded_at < now)
    (hinc : strictlyIncreasing old) :
    (new = old ++ [⟨name, lbl, cur, now⟩]
      ↔ (old = [] ∨ ∃ p, (List.insertionSort recordedDesc old).head? = some p ∧
          p.total < cur)) ∧
    (new = old
      ↔ ¬(old = [] ∨ ∃ p, (List.insertionSort recordedDesc old).head? = some p ∧
          p.total < cur)) ∧
    strictlyIncreasing new ∧
    (∀ p q, (List.insertionSort recordedDesc old).head? = some p →
      (List.insertionSort recordedDesc new).head? = some q → p.total ≤ q.total) := by
  have hrec : old.Pairwise (fun p q => p.recorded_at < q.recorded_at) :=
    hinc.imp (fun h => h.1)
  have hiff := needsNewSnapshot_latest_iff old cur hrec
  cases hg : needsNewSnapshot ((List.insertionSort recordedDesc old).head?) cur with
  | false =>
      have hcond : ¬(old = [] ∨ ∃ p,
          (List.insertionSort recordedDesc old).head? = some p ∧ p.total < cur) := by
        rw [← hiff, hg]
        simp
      rw [hg] at hnew
      simp only [Bool.false_eq_true, if_false, List.append_nil] at hnew
      subst hnew
      refine ⟨?_, iff_of_true rfl hcond, hinc, ?_⟩
      · refine iff_of_false (fun he => ?_) hcond
        have := congrArg List.length he
        simp at this
      · intro p q hp hq
        have : p = q := Option.some.inj (hp.symm.trans hq)
        rw [this]
  | true =>
      have hcond : old = [] ∨ ∃ p,
          (List.insertionSort recordedDesc old).head? = some p ∧ p.total < cur :=
        hiff.mp hg
      rw [hg] at hnew
      simp only [if_true] at hnew
      subst hnew
      have htot : ∀ q ∈ old, q.total < cur := by
        rcases hcond with hnil | ⟨p, hp, hpc⟩
        · rw [hnil]
          simp
        · rcases List.eq_nil_or_concat' old with rfl | ⟨l2, a, rfl⟩
          · simp
          · have hlast : (List.insertionSort recordedDesc (l2 ++ [a])).head? = some a := by
              rw [head_sort_desc_eq_getLast _ hrec, List.getLast?_concat]
            have hpa : p = a := Option.some.inj (hp.symm.trans hlast)
            intro q hq
            exact lt_of_le_of_lt (latest_total_ge l2 a hinc q hq) (hpa ▸ hpc)
      have hD : strictlyIncreasing (old ++ [⟨name, lbl, cur, now⟩]) := by
        rw [strictlyIncreasing, List.pairwise_append]
        refine ⟨hinc, List.pairwise_singleton _ _, ?_⟩
        intro p hp r hr
        simp only [List.mem_singleton] at hr
        subst hr
        exact ⟨hfresh p hp, htot p hp⟩
      refine ⟨iff_of_true rfl hcond, ?_, hD, ?_⟩
      · refine iff_of_false (fun he => ?_) (not_not_intro hcond)
        have := congrArg List.length he
        simp at this
      · intro p q hp hq
        have hlastnew : (List.insertionSort recordedDesc
            (old ++ [⟨name, lbl, cur, now⟩])).head? = some ⟨name, lbl, cur, now⟩ := by
          rw [head_sort_desc_eq_getLast _ (hD.imp (fun h => h.1)), List.getLast?_concat]
        have hq2 : q = ⟨name, lbl, cur, now⟩ := Option.some.inj (hq.symm.trans hlastnew)
        rcases List.eq_nil_or_concat' old with rfl | ⟨l2, a, rfl⟩
        · simp [List.insertionSort] at hp
        · have hlast : (List.insertionSort recordedDesc (l2 ++ [a])).head? = some a := by
            rw [head_sort_desc_eq_getLast _ hrec, List.getLast?_concat]
          have hpa : p = a := Option.some.inj (hp.symm.trans hlast)
          have hpm : p ∈ l2 ++ [a] := by
            rw [hpa]
            simp
          rw [hq2]
          exact le_of_lt (htot p hpm)

set_option maxHeartbeats 1000000 in
/-- C3: for every decoder and every line label among 4L, 4L+, 6L and 6L+, one
run of the progress job only appends rows to the table; the history of the
decoder and label gains exactly one new snapshot (carrying the freshly
computed top-50 patch sum and the current timestamp) precisely when no
snapshot exists or that sum strictly exceeds the latest stored total, and is
otherwise untouched; under the invariant that past snapshots are strictly
increasing in recorded-at order and strictly older than now, the invariant is
preserved and the latest stored total never decreases. -/
theorem c3_progress_append_only_monotone (resDb : List DecodeResult)
    (progDb : List DecoderProgress) (name : String) (now : Nat) (lbl : String)
    (hlbl : lbl = "4L" ∨ lbl = "4L+" ∨ lbl = "6L" ∨ lbl = "6L+")
    (hfresh : ∀ p ∈ lineHistory progDb name lbl, p.recorded_at < now)
    (hinc : strictlyIncreasing (lineHistory progDb name lbl)) :
    (∃ ext, update_decoder_progress resDb progDb name now = progDb ++ ext) ∧
    (lineHistory (update_decoder_progress resDb progDb name now) name lbl
        = lineHistory progDb name lbl
          ++ [⟨name, lbl, lineLabelSum resDb name lbl, now⟩]
      ↔ (lineHistory progDb name lbl = [] ∨
         ∃ p, get_latest_progress progDb name lbl = some p ∧
           p.total < lineLabelSum resDb name lbl)) ∧
    (lineHistory (update_decoder_progress resDb progDb name now) name lbl
        = lineHistory progDb name lbl
      ↔ ¬(lineHistory progDb name lbl = [] ∨
          ∃ p, get_latest_progress progDb name lbl = some p ∧
            p.total < lineLabelSum resDb name lbl)) ∧
    strictlyIncreasing
      (lineHistory (update_decoder_progress resDb progDb name now) name lbl) ∧
    (∀ p q, get_latest_progress progDb name lbl = some p →
      get_latest_progress (update_decoder_progress resDb progDb name now) name lbl
        = some q → p.total ≤ q.total) := by
  have hupd : update_decoder_progress resDb progDb name now
      = progDb ++
        ((if needsNewSnapshot (get_latest_progress progDb name "4L")
              (get_top_50_patch_sum resDb name 4 false) then
            [⟨name, "4L", get_top_50_patch_sum resDb name 4 false, now⟩] else [])
          ++ ((if needsNewSnapshot (get_latest_progress progDb name "4L+")
                (get_top_50_patch_sum resDb name 4 true) then
              [⟨name, "4L+", get_top_50_patch_sum resDb name 4 true, now⟩] else [])
            ++ ((if needsNewSnapshot (get_latest_progress progDb name "6L")
                  (get_top_50_patch_sum resDb name 6 false) then
                [⟨name, "6L", get_top_50_patch_sum resDb name 6 false, now⟩] else [])
              ++ (if needsNewSnapshot (get_latest_progress progDb name "6L+")
                    (get_top_50_patch_sum resDb name 6 true) then
                  [⟨name, "6L+", get_top_50_patch_sum resDb name 6 true, now⟩]
                else [])))) := by
    unfold update_decoder_progress
    split_ifs <;> simp [*]
  rcases hlbl with rfl | rfl | rfl | rfl
  · have hLH : lineHistory (update_decoder_progress resDb progDb name now) name "4L"
        = lineHistory progDb name "4L" ++
          (if needsNewSnapshot (get_latest_progress progDb name "4L")
              (get_top_50_patch_sum resDb name 4 false) then
            [⟨name, "4L", get_top_50_patch_sum resDb name 4 false, now⟩] else []) := by
      rw [hupd]
      split_ifs <;> simp [lineHistory]
    have hspec := snapshot_line_spec (lineHistory progDb name "4L") name "4L"
      (lineLabelSum resDb name "4L") now
      (lineHistory (update_decoder_progress resDb progDb name now) name "4L")
      hLH hfresh hinc
    exact ⟨⟨_, hupd⟩, hspec.1, hspec.2.1, hspec.2.2.1, hspec.2.2.2⟩
  · have hLH : lineHistory (update_decoder_progress resDb progDb name now) name "4L+"
        = lineHistory progDb name "4L+" ++
          (if needsNewSnapshot (get_latest_progress progDb name "4L+")
              (get_top_50_patch_sum resDb name 4 true) then
            [⟨name, "4L+", get_top_50_patch_sum resDb name 4 true, now⟩] else []) := by
      rw [hupd]
      split_ifs <;> simp [lineHistory]
    have hspec := snapshot_line_spec (lineHistory progDb name "4L+") name "4L+"
      (lineLabelSum resDb name "4L+") now
      (lineHistory (update_decoder_progress resDb progDb name now) name "4L+")
      hLH hfresh hinc
    exact ⟨⟨_, hupd⟩, hspec.1, hspec.2.1, hspec.2.2.1, hspec.2.2.2⟩
  · have hLH : lineHistory (update_decoder_progress resDb progDb name now) name "6L"
        = lineHistory progDb name "6L" ++
          (if needsNewSnapshot (get_latest_progress progDb name "6L")
              (get_top_50_patch_sum resDb name 6 false) then
            [⟨name, "6L", get_top_50_patch_sum resDb name 6 false, now⟩] else []) := by
      rw [hupd]
      split_ifs <;> simp [lineHistory]
    have hspec := snapshot_line_spec (lineHistory progDb name "6L") name "6L"
      (lineLabelSum resDb name "6L") now
      (lineHistory (update_decoder_progress resDb progDb name now) name "6L")
      hLH hfresh hinc
    exact ⟨⟨_, hupd⟩, hspec.1, hspec.2.1, hspec.2.2.1, hspec.2.2.2⟩
  · have hLH : lineHistory (update_decoder_progress resDb progDb name now) name "6L+"
        = lineHistory progDb name "6L+" ++
          (if needsNewSnapshot (get_latest_progress progDb name "6L+")
              (get_top_50_patch_sum resDb name 6 true) then
            [⟨name, "6L+", get_top_50_patch_sum resDb name 6 true, now⟩] else []) := by
      rw [hupd]
      split_ifs <;> simp [lineHistory]
    have hspec := snapshot_line_spec (lineHistory progDb name "6L+") name "6L+"
      (lineLabelSum resDb name "6L+") now
      (lineHistory (update_decoder_progress resDb progDb name now) name "6L+")
      hLH hfresh hinc
    exact ⟨⟨_, hupd⟩, hspec.1, hspec.2.1, hspec.2.2.1, hspec.2.2.2⟩

theorem c3_progress_append_only_monotone_witness :
    (∃ ext, update_decoder_progress ([] : List DecodeResult)
        ([] : List DecoderProgress) "Ada" 1 = [] ++ ext) ∧
    (lineHistory (update_decoder_progress [] [] "Ada" 1) "Ada" "4L"
        = lineHistory ([] : List DecoderProgress) "Ada" "4L"
          ++ [⟨"Ada", "4L", lineLabelSum [] "Ada" "4L", 1⟩]
      ↔ (lineHistory ([] : List DecoderProgress) "Ada" "4L" = [] ∨
         ∃ p, get_latest_progress ([] : List DecoderProgress) "Ada" "4L" = some p ∧
           p.total < lineLabelSum [] "Ada" "4L")) ∧
    (lineHistory (update_decoder_progress [] [] "Ada" 1) "Ada" "4L"
        = lineHistory ([] : List DecoderProgress) "Ada" "4L"
      ↔ ¬(lineHistory ([] : List DecoderProgress) "Ada" "4L" = [] ∨
          ∃ p, get_latest_progress ([] : List DecoderProgress) "Ada" "4L" = some p ∧
            p.total < lineLabelSum [] "Ada" "4L")) ∧
    strictlyIncreasing
      (lineHistory (update_decoder_progress [] [] "Ada" 1) "Ada" "4L") ∧
    (∀ p q, get_latest_progress ([] : List DecoderProgress) "Ada" "4L" = some p →
      get_latest_progress (update_decoder_progress [] [] "Ada" 1) "Ada" "4L"
        = some q → p.total ≤ q.total) :=
  c3_progress_append_only_monotone [] [] "Ada" 1 "4L" (Or.inl rfl)
    (by simp [lineHistory]) (by simp [strictlyIncreasing, lineHistory])

end PlatinaArchive
